import Mathlib

/-!
Verification of the livability-score service (src/main.py) against its
natural-language specification.

Numbers are modelled as rationals: every arithmetic operation the scoring
function performs (division by 5, multiplication by 100, min/max clamping,
halving) is expressed exactly over `Rat`, mirroring the Python expressions.
The outbound HTTP call made by `ask_gemini_analysis` is modelled by an
oracle value `NetOutcome` describing what the call would produce; response
bodies are modelled by a small JSON value type together with Python-style
`dict.get` / list-indexing semantics, where a raised Python exception is an
`Except.error` carrying the text of `str(e)`.
-/

namespace Livability

/-! ### Score calculator (src/main.py lines 34-57) -/

/-- Embedding of line 40: `solar_score = min(max(solar / 5 * 100, 0), 100)`. -/
def solar_score (solar : Rat) : Rat :=
  min (max (solar / 5 * 100) 0) 100

/-- Embedding of line 41: `aqi_score = max(0, 100 - aqi)`. -/
def aqi_score (aqi : Rat) : Rat :=
  max 0 (100 - aqi)

/-- Embedding of line 44: `combined_score = 0.5 * solar_score + 0.5 * aqi_score`. -/
def combined_score (solar aqi : Rat) : Rat :=
  (1/2 : Rat) * solar_score solar + (1/2 : Rat) * aqi_score aqi

/-- Embedding of `calculate_livability_score` (lines 34-57): normalize, combine
with equal weights, and classify by the two thresholds of lines 47 and 50. -/
def calculate_livability_score (solar aqi : Rat) : String × Int :=
  let combined : Rat := combined_score solar aqi
  if 70 ≤ combined then ("High", 80)
  else if 40 ≤ combined then ("Medium", 50)
  else ("Low", 20)

/-! ### Reference algorithm as the spec words it (section 4.1 of the spec) -/

/-- Clamp of a rational to a closed interval, the primitive the spec uses. -/
def clamp (x lo hi : Rat) : Rat :=
  min (max x lo) hi

/-- Spec step 1: `solar_score = clamp(solar / 5 * 100, 0, 100)`. -/
def spec_solar_score (solar : Rat) : Rat :=
  clamp (solar / 5 * 100) 0 100

/-- Spec step 2: `aqi_score = clamp(100 - aqi, 0, infinity)`, that is a lower
clamp at 0 with no upper clamp. -/
def spec_aqi_score (aqi : Rat) : Rat :=
  max (100 - aqi) 0

/-- Spec step 3: `combined = 0.5*solar_score + 0.5*aqi_score`. -/
def spec_combined (solar aqi : Rat) : Rat :=
  (1/2 : Rat) * spec_solar_score solar + (1/2 : Rat) * spec_aqi_score aqi

/-! ### JSON values and the Python access semantics used on line 91 -/

/-- JSON values, the shape of the parsed response body of the outbound call. -/
inductive Json where
  | null
  | str (s : String)
  | num (q : Rat)
  | bool (b : Bool)
  | arr (xs : List Json)
  | obj (kvs : List (String × Json))

/-- Python `x.get(key, default)`: on a dict, the value at the key when present
and the default otherwise; any other receiver raises AttributeError, carried
as the error text. -/
def dictGetD (j : Json) (key : String) (d : Json) : Except String Json :=
  match j with
  | .obj kvs =>
    match kvs.lookup key with
    | some v => Except.ok v
    | none => Except.ok d
  | _ => Except.error "object has no attribute get"

/-- Python `x[i]` for a natural index: on a list, the element when the index
is in range and IndexError with message "list index out of range" otherwise;
a dict raises KeyError rendered as the key, anything else TypeError. -/
def listIndex (j : Json) (i : Nat) : Except String Json :=
  match j with
  | .arr xs =>
    match xs.get? i with
    | some v => Except.ok v
    | none => Except.error "list index out of range"
  | .obj _ => Except.error (toString i)
  | _ => Except.error "object is not subscriptable"

/-- Embedding of line 91: the chained
`gemini_data.get("candidates", [\x7b\x7d])[0].get("content", \x7b\x7d).get("parts", [\x7b\x7d])[0].get("text", "No AI analysis returned.")`,
with each step either producing a value or raising, and a raise at any step
propagating to the enclosing try/except. -/
def extract_gemini_text (gemini_data : Json) : Except String Json :=
  match dictGetD gemini_data "candidates" (.arr [.obj []]) with
  | .error e => .error e
  | .ok a =>
  match listIndex a 0 with
  | .error e => .error e
  | .ok b =>
  match dictGetD b "content" (.obj []) with
  | .error e => .error e
  | .ok c =>
  match dictGetD c "parts" (.arr [.obj []]) with
  | .error e => .error e
  | .ok d =>
  match listIndex d 0 with
  | .error e => .error e
  | .ok e0 => dictGetD e0 "text" (.str "No AI analysis returned.")

/-- Conversion of the extracted JSON value to the returned string. On every
path a claim exercises the value is a JSON string and the conversion is the
identity; other shapes do not occur in any claim and are rendered by a fixed
placeholder. -/
def jsonAsStr : Json → String
  | .str s => s
  | _ => "non-string JSON value"

/-! ### The explanation requester (src/main.py lines 61-93) -/

/-- Outcome of the single outbound HTTP POST, as an oracle: either some
exception was raised by the request, `raise_for_status` or JSON parsing
(carrying the text of `str(e)`), or a 2xx response parsed to a JSON body. -/
inductive NetOutcome where
  | raised (msg : String)
  | parsed (body : Json)

/-- Ambient environment of the service: the optional GEMINI_API_KEY value and
the Python rendering of floats used by the f-string of lines 70-76, kept
abstract since no claim depends on the exact digits. -/
structure Env where
  geminiApiKey : Option String
  render : Rat → String

/-- Python falsiness test of line 67: the key is absent or the empty string. -/
def credentialMissing (env : Env) : Bool :=
  match env.geminiApiKey with
  | none => true
  | some k => k == ""

/-- Embedding of lines 70-78: the prompt text built from lat, lon, solar, aqi
and, when an image accompanies the request, a fixed extra sentence. -/
def prompt_text (env : Env) (lat lon solar aqi : Rat)
    (image_base64 : Option String) : String :=
  "Location: lat=" ++ env.render lat ++ ", lon=" ++ env.render lon ++ "\n" ++
  "Solar radiation score: " ++ env.render solar ++ "\n" ++
  "Air quality index: " ++ env.render aqi ++ "\n" ++
  "Explain the livability of this location based on these scores, " ++
  "and suggest interventions or improvements. " ++
  (match image_base64 with
   | some _ => "Analyze this image together with the scores.\n"
   | none => "")

/-- Embedding of lines 82-84: the JSON payload of the outbound POST. -/
def gemini_payload (env : Env) (lat lon solar aqi : Rat)
    (image_base64 : Option String) : Json :=
  .obj [("contents", .arr [.obj [("parts", .arr
    ([.obj [("text", .str (prompt_text env lat lon solar aqi image_base64))]] ++
      (match image_base64 with
       | some data => [.obj [("inline_data", .obj
           [("mime_type", .str "image/jpeg"), ("data", .str data)])]]
       | none => [])))]])]

/-- Result of one run of `ask_gemini_analysis`: the returned string, whether
the outbound call was attempted, and the payload sent when it was. -/
structure AskResult where
  text : String
  networkCalled : Bool
  request : Option Json

/-- Embedding of `ask_gemini_analysis` (lines 61-93): return the skip message
without any network call when the credential is missing; otherwise build the
payload, attempt the single POST, and either extract the text (line 91) or
catch the exception and return the prefixed failure message (line 93). -/
def ask_gemini_analysis (env : Env) (lat lon solar aqi : Rat)
    (image_base64 : Option String) (net : NetOutcome) : AskResult :=
  if credentialMissing env then
    ⟨"GEMINI_API_KEY not set. Skipping AI analysis.", false, none⟩
  else
    let payload := gemini_payload env lat lon solar aqi image_base64
    match net with
    | .raised msg =>
        ⟨"Failed to get Gemini AI analysis: " ++ msg, true, some payload⟩
    | .parsed body =>
      match extract_gemini_text body with
      | .ok v => ⟨jsonAsStr v, true, some payload⟩
      | .error msg =>
          ⟨"Failed to get Gemini AI analysis: " ++ msg, true, some payload⟩

/-! ### The inbound endpoint (src/main.py lines 97-115) -/

/-- The response model of lines 22-30. -/
structure LivabilityResult where
  location_latitude : Rat
  location_longitude : Rat
  solar_radiation_score : Rat
  air_quality_index : Rat
  calculated_livability_score : String
  estimated_habitable_years : Int
  gemini_analysis : String
  data_source : String

/-- Embedding of `get_livability_score` (lines 97-115). The range test is
Modelled from the spec: FastAPI enforcement of the Query bounds ge=-90,
le=90, ge=-180, le=180 declared on lines 99-100 is framework code outside
src/; per the spec it rejects out-of-range latitude or longitude before the
handler body runs, and solar and aqi carry no bounds. In-range requests run
the handler body of lines 104-115 with the image argument absent. -/
def get_livability_score (env : Env) (net : NetOutcome)
    (lat lon solar aqi : Rat) : Option LivabilityResult :=
  if -90 ≤ lat ∧ lat ≤ 90 ∧ -180 ≤ lon ∧ lon ≤ 180 then
    some ⟨lat, lon, solar, aqi,
      (calculate_livability_score solar aqi).1,
      (calculate_livability_score solar aqi).2,
      (ask_gemini_analysis env lat lon solar aqi none net).text,
      "Solar Radiation + AQI dataset + Eco Prediction Insight"⟩
  else none

/-- A fixed environment with a configured credential, used by witnesses. -/
def envWithKey : Env :=
  ⟨some "key", fun _ => ""⟩

/-- A response body whose candidates field is present and the empty list. -/
def emptyCandidatesBody : Json :=
  .obj [("candidates", .arr [])]

/-- Characters that can occur in the Python decimal rendering of a float:
digits, signs, the decimal point, the exponent marker, and the letters of
the special values inf and nan. -/
def floatReprChar (c : Char) : Bool :=
  c.isDigit || c == '.' || c == '-' || c == '+' || c == 'e' ||
  c == 'i' || c == 'n' || c == 'f' || c == 'a'

/-- A rendering function that produces only float-repr characters, as the
Python f-string formatting of the four float inputs does. -/
def NumericRendering (f : Rat → String) : Prop :=
  ∀ q : Rat, ∀ c ∈ (f q).data, floatReprChar c = true

/-- The fixed text of the prompt of lines 70-76 with the rendered numbers
removed, concatenated in order. -/
def promptFixedText : String :=
  "Location: lat=" ++ ", lon=" ++ "\n" ++ "Solar radiation score: " ++
  "\n" ++ "Air quality index: " ++ "\n" ++
  "Explain the livability of this location based on these scores, " ++
  "and suggest interventions or improvements. "

end Livability

namespace Livability

/-- C1: for every pair of inputs, the code computes solar_score as
solar/5*100 clamped to [0, 100], aqi_score as max(0, 100 - aqi), and
combined as 0.5*solar_score + 0.5*aqi_score, exactly as the reference
algorithm of the spec states. -/
theorem calculate_matches_spec_reference (solar aqi : Rat) :
    solar_score solar = spec_solar_score solar ∧
    aqi_score aqi = spec_aqi_score aqi ∧
    combined_score solar aqi = spec_combined solar aqi := by
  refine ⟨rfl, ?_, ?_⟩
  · simp [aqi_score, spec_aqi_score, max_comm]
  · simp [combined_score, spec_combined, spec_solar_score, clamp, solar_score,
      aqi_score, spec_aqi_score, max_comm]

/-- C2: the combined score is classified by fixed thresholds with inclusive
lower bounds: at least 70 gives ("High", 80), at least 40 but below 70 gives
("Medium", 50), below 40 gives ("Low", 20). -/
theorem calculate_threshold_classification (solar aqi : Rat) :
    (70 ≤ combined_score solar aqi →
      calculate_livability_score solar aqi = ("High", 80)) ∧
    (40 ≤ combined_score solar aqi ∧ combined_score solar aqi < 70 →
      calculate_livability_score solar aqi = ("Medium", 50)) ∧
    (combined_score solar aqi < 40 →
      calculate_livability_score solar aqi = ("Low", 20)) := by
  unfold calculate_livability_score
  refine ⟨fun h => by simp [h], fun h => ?_, fun h => ?_⟩
  · rw [if_neg (by linarith [h.2]), if_pos h.1]
  · rw [if_neg (by linarith), if_neg (by linarith)]

/-- Witness for C2 at the boundaries: combined exactly 70 (solar 5, aqi 60)
gives High/80, combined exactly 40 (solar 0, aqi 20) gives Medium/50, and
combined 39.999 (solar 0, aqi 20.002) gives Low/20. -/
theorem calculate_threshold_classification_boundary :
    calculate_livability_score 5 60 = ("High", 80) ∧
    calculate_livability_score 0 20 = ("Medium", 50) ∧
    calculate_livability_score 0 (20002/1000) = ("Low", 20) := by
  refine ⟨(calculate_threshold_classification 5 60).1 ?_,
    (calculate_threshold_classification 0 20).2.1 ⟨?_, ?_⟩,
    (calculate_threshold_classification 0 (20002/1000)).2.2 ?_⟩ <;>
    norm_num [combined_score, solar_score, aqi_score]

/-- C4: the AQI sub-score is clamped below at 0 but has no upper clamp, so
every negative aqi pushes it above 100; in particular inputs (0, -50) give
aqi_score 150, combined 75, and classification ("High", 80). -/
theorem aqi_score_not_upper_clamped :
    (∀ aqi : Rat, aqi < 0 → 100 < aqi_score aqi) ∧
    aqi_score (-50) = 150 ∧
    combined_score 0 (-50) = 75 ∧
    calculate_livability_score 0 (-50) = ("High", 80) := by
  refine ⟨fun aqi h => ?_, ?_, ?_, ?_⟩
  · have : 100 < 100 - aqi := by linarith
    calc (100 : Rat) < 100 - aqi := this
      _ ≤ max 0 (100 - aqi) := le_max_right 0 (100 - aqi)
  · norm_num [aqi_score]
  · norm_num [combined_score, solar_score, aqi_score]
  · have h : (70 : Rat) ≤ combined_score 0 (-50) := by
      norm_num [combined_score, solar_score, aqi_score]
    simp [calculate_livability_score, h]

/-- Witness for C4: at aqi = -1 the sub-score exceeds 100, and the concrete
evaluations at (0, -50) hold. -/
theorem aqi_score_not_upper_clamped_example :
    100 < aqi_score (-1) ∧ calculate_livability_score 0 (-50) = ("High", 80) :=
  ⟨aqi_score_not_upper_clamped.1 (-1) (by norm_num),
    aqi_score_not_upper_clamped.2.2.2⟩

/-- The combined score grows when solar grows and aqi shrinks. -/
lemma combined_score_mono {solar solar' aqi aqi' : Rat}
    (hs : solar ≤ solar') (ha : aqi' ≤ aqi) :
    combined_score solar aqi ≤ combined_score solar' aqi' := by
  have h1 : solar / 5 * 100 ≤ solar' / 5 * 100 := by linarith
  have h2 : solar_score solar ≤ solar_score solar' :=
    min_le_min (max_le_max h1 le_rfl) le_rfl
  have h3 : aqi_score aqi ≤ aqi_score aqi' :=
    max_le_max le_rfl (by linarith)
  unfold combined_score
  linarith

/-- The habitable-years component is monotone in the combined score. -/
lemma habitable_years_mono {s a s' a' : Rat}
    (h : combined_score s a ≤ combined_score s' a') :
    (calculate_livability_score s a).2 ≤ (calculate_livability_score s' a').2 := by
  simp only [calculate_livability_score]
  split_ifs <;> simp_all <;> linarith

/-- C10: for a fixed aqi, increasing solar never decreases the combined score,
and for a fixed solar, increasing aqi never increases it; the returned
habitable years follow the same monotonicity. -/
theorem calculate_monotone (solar solar' aqi aqi' : Rat)
    (hs : solar ≤ solar') (ha : aqi ≤ aqi') :
    combined_score solar aqi ≤ combined_score solar' aqi ∧
    combined_score solar aqi' ≤ combined_score solar aqi ∧
    (calculate_livability_score solar aqi).2 ≤
      (calculate_livability_score solar' aqi).2 ∧
    (calculate_livability_score solar aqi').2 ≤
      (calculate_livability_score solar aqi).2 :=
  ⟨combined_score_mono hs le_rfl, combined_score_mono le_rfl ha,
    habitable_years_mono (combined_score_mono hs le_rfl),
    habitable_years_mono (combined_score_mono le_rfl ha)⟩

/-- Witness for C10 at solar 0 versus 5 and aqi 0 versus 100. -/
theorem calculate_monotone_example :
    combined_score 0 0 ≤ combined_score 5 0 ∧
    combined_score 0 100 ≤ combined_score 0 0 ∧
    (calculate_livability_score 0 0).2 ≤ (calculate_livability_score 5 0).2 ∧
    (calculate_livability_score 0 100).2 ≤ (calculate_livability_score 0 0).2 :=
  calculate_monotone 0 5 0 100 (by norm_num) (by norm_num)

/-- C5: whenever the GEMINI_API_KEY credential is not configured (absent, or
present as the falsy empty string), the requester returns exactly the skip
message for every input and every would-be outcome of the network, with no
network call attempted and no request built. -/
theorem ask_skips_without_credential (env : Env) (lat lon solar aqi : Rat)
    (image_base64 : Option String) (net : NetOutcome)
    (h : env.geminiApiKey = none ∨ env.geminiApiKey = some "") :
    ask_gemini_analysis env lat lon solar aqi image_base64 net =
      ⟨"GEMINI_API_KEY not set. Skipping AI analysis.", false, none⟩ := by
  have hc : credentialMissing env = true := by
    rcases h with h | h <;> simp [credentialMissing, h]
  simp [ask_gemini_analysis, hc]

/-- Witness for C5 with the key absent and a network oracle that would
raise. -/
theorem ask_skips_without_credential_example :
    ask_gemini_analysis ⟨none, fun _ => ""⟩ 1 2 3 4 none (.raised "boom") =
      ⟨"GEMINI_API_KEY not set. Skipping AI analysis.", false, none⟩ :=
  ask_skips_without_credential ⟨none, fun _ => ""⟩ 1 2 3 4 none
    (.raised "boom") (Or.inl rfl)

/-- C6: the requester is a total function into strings (the embedding itself
returns a string on every input and every oracle outcome, mirroring the
try/except of lines 86-93), and with a configured credential every failure of
the outbound call, and every exception during response processing, yields the
message prefixed by "Failed to get Gemini AI analysis: ". -/
theorem ask_total_and_failure_prefixed (env : Env) (lat lon solar aqi : Rat)
    (image_base64 : Option String) (net : NetOutcome)
    (hc : credentialMissing env = false) :
    (∀ msg, net = .raised msg →
      (ask_gemini_analysis env lat lon solar aqi image_base64 net).text =
        "Failed to get Gemini AI analysis: " ++ msg) ∧
    (∀ body, net = .parsed body →
      (∃ v, extract_gemini_text body = .ok v ∧
        (ask_gemini_analysis env lat lon solar aqi image_base64 net).text =
          jsonAsStr v) ∨
      (∃ rest,
        (ask_gemini_analysis env lat lon solar aqi image_base64 net).text =
          "Failed to get Gemini AI analysis: " ++ rest)) := by
  constructor
  · intro msg hmsg
    subst hmsg
    simp [ask_gemini_analysis, hc]
  · intro body hbody
    subst hbody
    cases hx : extract_gemini_text body with
    | ok v => exact Or.inl ⟨v, rfl, by simp [ask_gemini_analysis, hc, hx]⟩
    | error msg => exact Or.inr ⟨msg, by simp [ask_gemini_analysis, hc, hx]⟩

/-- Witness for C6: with a configured key and a raised network timeout, the
returned text is the prefixed failure message. -/
theorem ask_total_and_failure_prefixed_example :
    (ask_gemini_analysis envWithKey 0 0 0 0 none (.raised "timeout")).text =
      "Failed to get Gemini AI analysis: " ++ "timeout" :=
  (ask_total_and_failure_prefixed envWithKey 0 0 0 0 none (.raised "timeout")
    (by decide)).1 "timeout" rfl

/-- C3 counterexample: with a configured key and a successful call whose body
has candidates present as the empty list, line 91 indexes the empty list,
IndexError is caught by the except branch, and the returned string is the
prefixed failure message, not the fallback the claim states. -/
theorem empty_candidates_is_error_not_fallback :
    (ask_gemini_analysis envWithKey 0 0 0 0 none
        (.parsed emptyCandidatesBody)).text =
      "Failed to get Gemini AI analysis: list index out of range" ∧
    (ask_gemini_analysis envWithKey 0 0 0 0 none
        (.parsed emptyCandidatesBody)).text ≠ "No AI analysis returned." := by
  constructor
  · rfl
  · decide

/-- C3 as amended: with a configured credential and a successful call whose
body is a JSON object, a missing candidates key, a missing content key on the
first candidate, a missing parts key on the content, or a missing text key on
the first part each yield the fallback "No AI analysis returned.", while a
candidates key present as the empty list yields the caught IndexError message
"Failed to get Gemini AI analysis: list index out of range". -/
theorem ask_fallback_on_missing_keys (env : Env) (lat lon solar aqi : Rat)
    (image_base64 : Option String) (kvs : List (String × Json))
    (hc : credentialMissing env = false) :
    (kvs.lookup "candidates" = none →
      (ask_gemini_analysis env lat lon solar aqi image_base64
        (.parsed (.obj kvs))).text = "No AI analysis returned.") ∧
    (kvs.lookup "candidates" = some (.arr []) →
      (ask_gemini_analysis env lat lon solar aqi image_base64
        (.parsed (.obj kvs))).text =
        "Failed to get Gemini AI analysis: list index out of range") ∧
    (∀ c0 rest, kvs.lookup "candidates" = some (.arr (.obj c0 :: rest)) →
      c0.lookup "content" = none →
      (ask_gemini_analysis env lat lon solar aqi image_base64
        (.parsed (.obj kvs))).text = "No AI analysis returned.") ∧
    (∀ c0 rest ckvs, kvs.lookup "candidates" = some (.arr (.obj c0 :: rest)) →
      c0.lookup "content" = some (.obj ckvs) → ckvs.lookup "parts" = none →
      (ask_gemini_analysis env lat lon solar aqi image_base64
        (.parsed (.obj kvs))).text = "No AI analysis returned.") ∧
    (∀ c0 rest ckvs p0 prest,
      kvs.lookup "candidates" = some (.arr (.obj c0 :: rest)) →
      c0.lookup "content" = some (.obj ckvs) →
      ckvs.lookup "parts" = some (.arr (.obj p0 :: prest)) →
      p0.lookup "text" = none →
      (ask_gemini_analysis env lat lon solar aqi image_base64
        (.parsed (.obj kvs))).text = "No AI analysis returned.") := by
  refine ⟨fun h1 => ?_, fun h1 => ?_, fun c0 rest h1 h2 => ?_,
    fun c0 rest ckvs h1 h2 h3 => ?_, fun c0 rest ckvs p0 prest h1 h2 h3 h4 => ?_⟩ <;>
    simp [ask_gemini_analysis, hc, extract_gemini_text, dictGetD, listIndex,
      jsonAsStr, h1]
  · simp [h2]
  · simp [h2, h3]
  · simp [h2, h3, h4]

/-- Witness for C3 as amended: a body with no candidates key gives the
fallback, and a body with an empty candidates list gives the error message. -/
theorem ask_fallback_on_missing_keys_example :
    (ask_gemini_analysis envWithKey 0 0 0 0 none
        (.parsed (.obj []))).text = "No AI analysis returned." ∧
    (ask_gemini_analysis envWithKey 0 0 0 0 none
        (.parsed (.obj [("candidates", .arr [])]))).text =
      "Failed to get Gemini AI analysis: list index out of range" :=
  ⟨(ask_fallback_on_missing_keys envWithKey 0 0 0 0 none [] (by decide)).1 rfl,
    (ask_fallback_on_missing_keys envWithKey 0 0 0 0 none
      [("candidates", .arr [])] (by decide)).2.1 rfl⟩

/-- C8: an inbound request whose latitude lies outside [-90, 90] or whose
longitude lies outside [-180, 180] is rejected by the boundary layer: the
endpoint yields no result, so neither the calculator nor the requester runs. -/
theorem out_of_range_request_rejected (env : Env) (net : NetOutcome)
    (lat lon solar aqi : Rat)
    (h : lat < -90 ∨ 90 < lat ∨ lon < -180 ∨ 180 < lon) :
    get_livability_score env net lat lon solar aqi = none := by
  have hnot : ¬ (-90 ≤ lat ∧ lat ≤ 90 ∧ -180 ≤ lon ∧ lon ≤ 180) := by
    rintro ⟨h1, h2, h3, h4⟩
    rcases h with h | h | h | h <;> linarith
  simp [get_livability_score, hnot]

/-- Witness for C8 at latitude 91 and at longitude 181. -/
theorem out_of_range_request_rejected_example :
    get_livability_score envWithKey (.raised "x") 91 0 0 0 = none ∧
    get_livability_score envWithKey (.raised "x") 0 181 0 0 = none :=
  ⟨out_of_range_request_rejected envWithKey (.raised "x") 91 0 0 0
      (Or.inr (Or.inl (by norm_num))),
    out_of_range_request_rejected envWithKey (.raised "x") 0 181 0 0
      (Or.inr (Or.inr (Or.inr (by norm_num))))⟩

/-- C9: the endpoint validates only latitude and longitude; every rational
value of solar and aqi, with no range restriction, is accepted and passed
unchanged to the calculator, to the requester, and into the response. -/
theorem endpoint_accepts_any_solar_aqi (env : Env) (net : NetOutcome)
    (lat lon solar aqi : Rat)
    (h1 : -90 ≤ lat) (h2 : lat ≤ 90) (h3 : -180 ≤ lon) (h4 : lon ≤ 180) :
    get_livability_score env net lat lon solar aqi =
      some ⟨lat, lon, solar, aqi,
        (calculate_livability_score solar aqi).1,
        (calculate_livability_score solar aqi).2,
        (ask_gemini_analysis env lat lon solar aqi none net).text,
        "Solar Radiation + AQI dataset + Eco Prediction Insight"⟩ := by
  simp [get_livability_score, h1, h2, h3, h4]

/-- Witness for C9 at the far out-of-nominal-range inputs solar = -1000 and
aqi = 100000. -/
theorem endpoint_accepts_any_solar_aqi_example :
    get_livability_score envWithKey (.raised "x") 0 0 (-1000) 100000 =
      some ⟨0, 0, -1000, 100000,
        (calculate_livability_score (-1000) 100000).1,
        (calculate_livability_score (-1000) 100000).2,
        (ask_gemini_analysis envWithKey 0 0 (-1000) 100000 none
          (.raised "x")).text,
        "Solar Radiation + AQI dataset + Eco Prediction Insight"⟩ :=
  endpoint_accepts_any_solar_aqi envWithKey (.raised "x") 0 0 (-1000) 100000
    (by norm_num) (by norm_num) (by norm_num) (by norm_num)

/-- The characters of an appended string are the appended character lists. -/
lemma string_data_append (s t : String) : (s ++ t).data = s.data ++ t.data := by
  cases s
  cases t
  rfl

/-- The label returned by the calculator is one of the three fixed strings. -/
lemma label_is_high_medium_low (s a : Rat) :
    (calculate_livability_score s a).1 = "High" ∨
    (calculate_livability_score s a).1 = "Medium" ∨
    (calculate_livability_score s a).1 = "Low" := by
  simp only [calculate_livability_score]
  split_ifs <;> simp

/-- Every character of the prompt is either a float-repr character coming
from one of the four rendered numbers or a character of the fixed text. -/
lemma mem_prompt_chars (env : Env) (lat lon solar aqi : Rat) (c : Char)
    (hr : NumericRendering env.render)
    (h : c ∈ (prompt_text env lat lon solar aqi none).data) :
    floatReprChar c = true ∨ c ∈ promptFixedText.data := by
  simp only [prompt_text, string_data_append, List.mem_append] at h
  casesm* _ ∨ _
  all_goals first
    | exact Or.inl (hr _ _ (by assumption))
    | (refine Or.inr ?_
       simp only [promptFixedText, string_data_append, List.mem_append]
       tauto)

/-- C7: the explanation request is a function of the raw inputs only. The
endpoint feeds the requester lat, lon, solar, aqi and no image; the request
payload, when one is built, is exactly the payload of those raw inputs; and
no label the calculator can return occurs as a contiguous substring of the
prompt, for any inputs. -/
theorem prompt_and_request_use_raw_inputs_only (env : Env) (net : NetOutcome)
    (lat lon solar aqi : Rat) (hr : NumericRendering env.render) :
    (∀ r, get_livability_score env net lat lon solar aqi = some r →
      r.gemini_analysis =
        (ask_gemini_analysis env lat lon solar aqi none net).text) ∧
    ((ask_gemini_analysis env lat lon solar aqi none net).request = none ∨
      (ask_gemini_analysis env lat lon solar aqi none net).request =
        some (gemini_payload env lat lon solar aqi none)) ∧
    (∀ s a : Rat, ¬ ∃ pre suf,
      (prompt_text env lat lon solar aqi none).data =
        pre ++ (calculate_livability_score s a).1.data ++ suf) := by
  refine ⟨?_, ?_, ?_⟩
  · intro r h
    rw [get_livability_score] at h
    split_ifs at h
    injection h with h
    rw [← h]
  · by_cases hcm : credentialMissing env = true
    · exact Or.inl (by simp [ask_gemini_analysis, hcm])
    · have hc : credentialMissing env = false := by simpa using hcm
      refine Or.inr ?_
      cases net with
      | raised m => simp [ask_gemini_analysis, hc]
      | parsed body =>
        cases hx : extract_gemini_text body <;>
          simp [ask_gemini_analysis, hc, hx]
  · rintro s a ⟨pre, suf, heq⟩
    have key : ∀ c : Char, c ∈ (calculate_livability_score s a).1.data →
        floatReprChar c = true ∨ c ∈ promptFixedText.data := by
      intro c hcmem
      refine mem_prompt_chars env lat lon solar aqi c hr ?_
      rw [heq]
      simp only [List.mem_append]
      tauto
    rcases label_is_high_medium_low s a with hl | hl | hl
    · rcases key 'H' (by rw [hl]; decide) with h | h <;> exact absurd h (by decide)
    · rcases key 'M' (by rw [hl]; decide) with h | h <;> exact absurd h (by decide)
    · rcases key 'w' (by rw [hl]; decide) with h | h <;> exact absurd h (by decide)

/-- Witness for C7: at concrete inputs, the label computed for (5, 0) does
not occur inside the prompt built from (1, 2, 3, 4). -/
theorem prompt_and_request_use_raw_inputs_only_example :
    ¬ ∃ pre suf, (prompt_text envWithKey 1 2 3 4 none).data =
      pre ++ (calculate_livability_score 5 0).1.data ++ suf :=
  (prompt_and_request_use_raw_inputs_only envWithKey (.raised "x") 1 2 3 4
    (fun q c hc => by simp [envWithKey] at hc)).2.2 5 0

end Livability
